import Mathlib

/-!
Verification development for the ConNL ETL transform core
(`app/etl_central/assets/`): a shallow embedding in Lean 4 of the
three spreadsheet transforms (balance, expenditures, revenue) and their
helpers, with theorems checking the natural-language specification.

Modelling conventions:
* A spreadsheet cell is `Cell`: either `Cell.null` (pandas `NaN`/`None`)
  or `Cell.str s` (any other value, already rendered by Python `str`).
  `cellStr` models `str(cell)` / `.astype(str)`: pandas renders a missing
  value as the string "nan".
* Python `float(s)` is modelled by `pyFloat?` (optional sign, digits with
  at most one decimal point), returning `Option ℚ`; parse failure is
  `Option.none`, matching the code's `except: return None`.
* Regular-expression tests from the source are transcribed as explicit
  character-list matchers (`\s` = `Char.isWhitespace`, `[A-Z]` =
  `Char.isUpper`, `\d` = `Char.isDigit`, ASCII as in the data).
* Random surrogate keys are outside the deterministic model; output
  records carry every other column of the corresponding DataFrame.
-/

/-- Python `str.strip()` on a character list (whitespace at both ends). -/
def trimChars (l : List Char) : List Char :=
  ((l.dropWhile Char.isWhitespace).reverse.dropWhile Char.isWhitespace).reverse

/-- Python `str.strip()` (kernel-reducible model of `String.trim`). -/
def pyStrip (s : String) : String := String.mk (trimChars s.data)

/-- Python `str.lower()` (ASCII; the data's cased characters are ASCII). -/
def lowerStr (s : String) : String := String.mk (s.data.map Char.toLower)

/-- A raw spreadsheet cell: missing (`NaN`/`None`) or a stringly value. -/
inductive Cell where
  | null : Cell
  | str : String → Cell
deriving DecidableEq, Repr

/-- `str(cell)` / `.astype(str)`: pandas renders a missing cell as "nan". -/
def cellStr : Cell → String
  | Cell.null => "nan"
  | Cell.str s => s

/-- Numeric value of a digit string (most significant first). -/
def digitsVal (l : List Char) : ℕ :=
  l.foldl (fun a c => a * 10 + (c.toNat - 48)) 0

/-- Split a character list at every '.' (used to model `float` parsing). -/
def splitOnDot : List Char → List (List Char)
  | [] => [[]]
  | c :: rest =>
    match splitOnDot rest with
    | h :: t => if c = '.' then [] :: h :: t else (c :: h) :: t
    | [] => [[c]]

/-- Unsigned part of Python `float(s)`: digits with at most one decimal
point and at least one digit overall. -/
def parseUnsigned (l : List Char) : Option ℚ :=
  match splitOnDot l with
  | [a] =>
    if a ≠ [] ∧ a.all Char.isDigit then some ((digitsVal a : ℚ)) else Option.none
  | [a, b] =>
    if (a ≠ [] ∨ b ≠ []) ∧ a.all Char.isDigit ∧ b.all Char.isDigit then
      some ((digitsVal a : ℚ) + (digitsVal b : ℚ) / ((10 : ℚ) ^ b.length))
    else Option.none
  | _ => Option.none

/-- Model of Python `float(s)` on the already-cleaned numeric text:
optional sign then an unsigned decimal literal (exponent and underscore
forms, unused by the data, are omitted). -/
def pyFloat? (s : String) : Option ℚ :=
  match s.data with
  | [] => Option.none
  | '-' :: rest => (parseUnsigned rest).map (fun q => -q)
  | '+' :: rest => parseUnsigned rest
  | l => parseUnsigned l

/-- `helpers.clean_amount`: strip, blank/"nan" to no-value, remove NBSP,
thin NBSP, spaces, '$' and ',', then parse as float; any failure gives
no-value instead of raising. The argument is the (optional) string
produced by `_normalize_amount_for_cp`. -/
def clean_amount (val : Option String) : Option ℚ :=
  match val with
  | Option.none => Option.none
  | some s0 =>
    let s := trimChars s0.data
    if s = [] ∨ s.map Char.toLower = "nan".data then Option.none
    else
      pyFloat?
        (String.mk (s.filter (fun c =>
          !(c == '\u00A0') && !(c == '\u202F') && !(c == ' ') && !(c == '$') && !(c == ','))))

/-- `helpers._normalize_amount_for_cp`: blank/NaN to no-value, Unicode
minus U+2212 to ASCII '-', "(x)" to "-x", trailing minus to leading. -/
def _normalize_amount_for_cp (val : Cell) : Option String :=
  match val with
  | Cell.null => Option.none
  | Cell.str v =>
    let s := trimChars v.data
    if s = [] ∨ s.map Char.toLower = "nan".data then Option.none
    else
      let s1 := s.map (fun c => if c = '\u2212' then '-' else c)
      let s2 :=
        if s1.head? = some '(' ∧ s1.getLast? = some ')' then
          '-' :: trimChars (s1.drop 1).dropLast
        else s1
      let s3 :=
        if s2.getLast? = some '-' ∧ ¬ s2.head? = some '-' then
          '-' :: trimChars s2.dropLast
        else s2
      some (String.mk s3)

/-- `ingresos_detallado_cp._normalize_then_clean`: accounting
normalization composed (first) with numeric cleaning. -/
def _normalize_then_clean (x : Cell) : Option ℚ :=
  clean_amount (_normalize_amount_for_cp x)

/-- The allowed Grammar-A code heads:
`A1|A2|A3|B1|B2|C1|C2|E1|E2|F1|F2|G1|G2`. -/
def codigoDigitsOk (L D : Char) : Bool :=
  (L = 'A' ∧ (D = '1' ∨ D = '2' ∨ D = '3')) ∨
  ((L = 'B' ∨ L = 'C' ∨ L = 'E' ∨ L = 'F' ∨ L = 'G') ∧ (D = '1' ∨ D = '2'))

/-- Anchored match of `^(A[123]|B[12]|C[12]|E[12]|F[12]|G[12])\.`,
returning group 1 (the code) on success. -/
def codeAPrefix? (s : String) : Option String :=
  match s.data with
  | L :: D :: '.' :: _ => if codigoDigitsOk L D then some (String.mk [L, D]) else Option.none
  | _ => Option.none

/-- `helpers.extraer_codigo_y_sublabel`: split "A1. Label" into
(code, label); on no match return (none, original text). `\s*` then
`(.*)` takes the rest of the line after the dot, skipping blanks. -/
def extraer_codigo_y_sublabel (texto : String) : Option String × String :=
  match codeAPrefix? texto with
  | some code =>
    (some code,
      String.mk (((texto.data.drop 3).dropWhile Char.isWhitespace).takeWhile (fun c => c ≠ '\n')))
  | Option.none => (Option.none, texto)

/-- First index in a list satisfying `p` (models `idxmax` over a boolean
mask / `vacias[0]` in the source). -/
def findFirstIdx {α : Type} (p : α → Bool) : List α → Option ℕ
  | [] => Option.none
  | a :: l => if p a then some 0 else (findFirstIdx p l).map (fun i => i + 1)

/-- First-occurrence deduplication by key `f`, carrying the set of keys
already seen (models `drop_duplicates(subset=..., keep="first")`). -/
def dedupFirstBy {α β : Type} [DecidableEq β] (f : α → β) : List α → List β → List α
  | [], _ => []
  | x :: xs, seen =>
    if f x ∈ seen then dedupFirstBy f xs seen else x :: dedupFirstBy f xs (f x :: seen)

/-! ## Balance dataset (`balance_presupuestario_cp.py`) -/

/-- One raw row of the `F4 BAP` sheet, columns 1..4 (column 0 is the
spacer the transform never reads): text, then the three amount cells. -/
structure BalRow where
  c1 : Cell
  c2 : Cell
  c3 : Cell
  c4 : Cell
deriving DecidableEq, Repr

/-- One output record of `transform_cp_data` (surrogate key omitted:
it is freshly random per row). -/
structure BalOut where
  concept : Option String
  sublabel : String
  year_quarter : String
  full_date : String
  type : String
  amount : Option ℚ
deriving DecidableEq, Repr

/-- Row-classification mask of step 1: column 1 matches a Grammar-A code. -/
def balKept (grid : List BalRow) : List BalRow :=
  grid.filter (fun r => (codeAPrefix? (cellStr r.c1)).isSome)

/-- The extracted dedup key of step 2 (`str.extract(pattern)`). -/
def balCode (r : BalRow) : Option String := codeAPrefix? (cellStr r.c1)

/-- Kept rows after step 2's `drop_duplicates(subset="code", keep="first")`. -/
def balSurvivors (grid : List BalRow) : List BalRow :=
  dedupFirstBy balCode (balKept grid) []

/-- The amount cell a given melt role reads (cols 2/3/4). -/
def balAmtCell (r : BalRow) (role : String) : Cell :=
  if role = "estimated_or_approved" then r.c2
  else if role = "devengado" then r.c3
  else r.c4

/-- Build one long-format record for a surviving row and a role:
concept/sublabel split, period fields, normalize-then-clean amount. -/
def balMk (year : ℕ) (role : String) (r : BalRow) : BalOut :=
  { concept := (extraer_codigo_y_sublabel (cellStr r.c1)).1
    sublabel := (extraer_codigo_y_sublabel (cellStr r.c1)).2
    year_quarter := toString year ++ "_CP"
    full_date := toString year ++ "-12-31"
    type := role
    amount := clean_amount (_normalize_amount_for_cp (balAmtCell r role)) }

/-- `transform_cp_data`: empty input gives an empty result; otherwise
filter to coded rows, dedup by code, melt to long format (all
`estimated_or_approved` records first, then `devengado`, then
`recaudado_pagado`, matching `DataFrame.melt`). -/
def transform_cp_data (grid : List BalRow) (year : ℕ) : List BalOut :=
  if grid.isEmpty then []
  else
    (balSurvivors grid).map (balMk year "estimated_or_approved") ++
    (balSurvivors grid).map (balMk year "devengado") ++
    (balSurvivors grid).map (balMk year "recaudado_pagado")

/-! ## Expenditures dataset (`egresos_detallado_cp.py`) -/

/-- One raw row of the `F6a COG` sheet, columns 1..7 (the transform reads
`iloc[:, 1:8]`; column 0 is never read): Concepto then the six amounts
Aprobado, Ampliaciones/Reducciones, Modificado, Devengado, Pagado,
Subejercicio. -/
structure EgRow where
  c1 : Cell
  c2 : Cell
  c3 : Cell
  c4 : Cell
  c5 : Cell
  c6 : Cell
  c7 : Cell
deriving DecidableEq, Repr

/-- One output record of `transform_egresos_detallado_cp_data`
(surrogate key omitted: freshly random per row). The amount cells pass
through untouched in this transform. -/
structure EgOut where
  codigo : String
  concepto : Cell
  aprobado : Cell
  ampliaciones : Cell
  modificado : Cell
  devengado : Cell
  pagado : Cell
  subejercicio : Cell
  fecha : String
  cuarto : String
  seccion : String
deriving DecidableEq, Repr

/-- `extract_codigo`: anchored match of `^\s*([A-Za-z])([0-9]+)\)`,
upper-casing the letter ("a1) x" gives "A1"); no match gives none. -/
def extract_codigo (texto : String) : Option String :=
  match texto.data.dropWhile Char.isWhitespace with
  | c :: rest =>
    if c.isAlpha then
      if (rest.takeWhile Char.isDigit) ≠ [] ∧ (rest.dropWhile Char.isDigit).head? = some ')' then
        some (String.mk (c.toUpper :: rest.takeWhile Char.isDigit))
      else Option.none
    else Option.none
  | [] => Option.none

/-- The dedup key `procesar_tabla` derives from the Concepto cell. -/
def egKey (r : EgRow) : Option String := extract_codigo (cellStr r.c1)

/-- Rows of one section table whose Codigo extraction succeeds. -/
def egKept (rows : List EgRow) : List EgRow :=
  rows.filter (fun r => (egKey r).isSome)

/-- Build one output record (Seccion is assigned by the caller). -/
def egMkOut (fecha cuarto : String) (r : EgRow) : EgOut :=
  { codigo := (egKey r).getD ""
    concepto := r.c1
    aprobado := r.c2
    ampliaciones := r.c3
    modificado := r.c4
    devengado := r.c5
    pagado := r.c6
    subejercicio := r.c7
    fecha := fecha
    cuarto := cuarto
    seccion := "" }

/-- `procesar_tabla`: derive Codigo, drop rows without one, drop
duplicate Codigo keeping the first, attach Fecha and Cuarto. -/
def procesar_tabla (rows : List EgRow) (fecha cuarto : String) : List EgOut :=
  (dedupFirstBy egKey (egKept rows) []).map (egMkOut fecha cuarto)

/-- Anchored match of `^\s*II\.\s*Gasto Etiquetado` (case-sensitive),
as used by `str.contains` on column 1. -/
def egMarkerMatch (s : String) : Bool :=
  match s.data.dropWhile Char.isWhitespace with
  | 'I' :: 'I' :: '.' :: rest =>
    "Gasto Etiquetado".data.isPrefixOf (rest.dropWhile Char.isWhitespace)
  | _ => false

/-- Whether an expenditure row terminates Section II: its text column
stripped is empty (a missing cell stringifies to "nan", not blank). -/
def egBlankRow (r : EgRow) : Bool := trimChars (cellStr r.c1).data = []

/-- Exclusive end row of Section II: the first blank text cell strictly
after the marker row `k`, or the number of rows when none is blank. -/
def egFin (grid : List EgRow) (k : ℕ) : ℕ :=
  match findFirstIdx egBlankRow (grid.drop (k + 1)) with
  | some j => k + 1 + j
  | Option.none => grid.length

/-- Section I block: rows 8 up to (excluding) the marker row `k`. -/
def egSectionI (grid : List EgRow) (k : ℕ) : List EgRow :=
  (grid.drop 8).take (k - 8)

/-- Section II block: rows after the marker row up to the first blank
text cell (or end of grid). -/
def egSectionII (grid : List EgRow) (k : ℕ) : List EgRow :=
  (grid.drop (k + 1)).take (egFin grid k - (k + 1))

/-- `transform_egresos_detallado_cp_data`: empty input gives an empty
result; a missing `II. Gasto Etiquetado` marker raises `ValueError`
(modelled as `Except.error`); otherwise both sections are normalized,
tagged and concatenated. -/
def transform_egresos_detallado_cp_data (grid : List EgRow) (year : ℕ) :
    Except String (List EgOut) :=
  if grid.isEmpty then Except.ok []
  else
    match findFirstIdx (fun r => egMarkerMatch (cellStr r.c1)) grid with
    | Option.none => Except.error "Header II. Gasto Etiquetado not found."
    | some k =>
      Except.ok
        ((procesar_tabla (egSectionI grid k) (toString year ++ "-12-31") "CP").map
            (fun o => { o with seccion := "I" }) ++
          (procesar_tabla (egSectionII grid k) (toString year ++ "-12-31") "CP").map
            (fun o => { o with seccion := "II" }))

/-- The records produced by the expenditures transform (empty on error). -/
def egOutput (grid : List EgRow) (year : ℕ) : List EgOut :=
  match transform_egresos_detallado_cp_data grid year with
  | Except.ok out => out
  | Except.error _ => []

/-! ## Revenue dataset (`ingresos_detallado_cp.py`) -/

/-- The raw `F5 EAI` sheet: rows of cells plus the sheet's column count
(`df.shape[1]`; pandas grids are rectangular). -/
structure Grid where
  rows : List (List Cell)
  ncols : ℕ
deriving Repr

/-- `df.empty`: no rows or no columns. -/
def gridEmpty (g : Grid) : Bool := g.rows.isEmpty || g.ncols == 0

/-- Cell of a row at a column index (`df.iat`, total via a null default). -/
def cellOf (row : List Cell) (c : ℕ) : Cell := row.getD c Cell.null

/-- One output record of `transform_ingresos_detallado_cp_data`
(surrogate key omitted: freshly random per row). -/
structure IngOut where
  concepto : String
  estimado : Option ℚ
  ampliaciones_reducciones : Option ℚ
  modificado : Option ℚ
  devengado : Option ℚ
  recaudado : Option ℚ
  diferencia : Option ℚ
  clave_primaria : Option String
  clave_secundaria : Option String
  fecha : String
  cuarto : String
  seccion : String
deriving DecidableEq, Repr

/-- The amount field of an output record by role position
(0 estimado, 1 ampliaciones_reducciones, 2 modificado, 3 devengado,
4 recaudado, 5 diferencia — the fixed role order of the detector). -/
def ingAmt (o : IngOut) : ℕ → Option ℚ
  | 0 => o.estimado
  | 1 => o.ampliaciones_reducciones
  | 2 => o.modificado
  | 3 => o.devengado
  | 4 => o.recaudado
  | _ => o.diferencia

/-- `helpers._first_match_row`: first row index at or after `startRow`
whose first `min maxScanCols ncols` stripped cells satisfy `p`. -/
def _first_match_row (g : Grid) (p : String → Bool) (maxScanCols startRow : ℕ) : Option ℕ :=
  (findFirstIdx
      (fun row => (row.take (min maxScanCols g.ncols)).any
        (fun cell => p (String.mk (trimChars (cellStr cell).data))))
      (g.rows.drop startRow)).map (fun i => i + startRow)

/-- Full match of `^\s*II\.\s*$` (IGNORECASE). -/
def rxRomanII (s : String) : Bool :=
  match (s.data.map Char.toLower).dropWhile Char.isWhitespace with
  | 'i' :: 'i' :: '.' :: rest => rest.all Char.isWhitespace
  | _ => false

/-- Consume a literal (already lower-cased) from the input, if present. -/
def eatLit : List Char → List Char → Option (List Char)
  | [], l => some l
  | c :: cs, x :: xs => if x = c then eatLit cs xs else Option.none
  | _ :: _, [] => Option.none

/-- Consume `\s+` (one or more whitespace characters), greedily. -/
def eatWs1 : List Char → Option (List Char)
  | x :: xs =>
    if Char.isWhitespace x then some (xs.dropWhile Char.isWhitespace) else Option.none
  | [] => Option.none

/-- Match of `transferencias\s+federales\s+etiquetadas[:\.]?$` starting
at this position of the (lower-cased) text. -/
def titleFrom (l : List Char) : Bool :=
  match ((((eatLit "transferencias".data l).bind eatWs1).bind
      (eatLit "federales".data)).bind eatWs1).bind (eatLit "etiquetadas".data) with
  | some l5 => l5 = [] || l5 = [':'] || l5 = ['.']
  | Option.none => false

/-- Search (IGNORECASE) for the Section II title pattern. -/
def rxTitleII (s : String) : Bool :=
  (List.range (s.data.length + 1)).any
    (fun i => titleFrom ((s.data.map Char.toLower).drop i))

/-- Match of `derivados\s+de\s+financiamientos` at this position. -/
def financShortFrom (l : List Char) : Bool :=
  match (((eatLit "derivados".data l).bind eatWs1).bind (eatLit "de".data)).bind eatWs1 with
  | some l4 => (eatLit "financiamientos".data l4).isSome
  | Option.none => false

/-- Match of `ingresos\s+derivados\s+de\s+financiamientos` here. -/
def financFullFrom (l : List Char) : Bool :=
  match (eatLit "ingresos".data l).bind eatWs1 with
  | some l2 => financShortFrom l2
  | Option.none => false

/-- Search (IGNORECASE) for either Financiamientos pattern (the full
form is subsumed by the short one; both are transcribed). -/
def rxFinanc (s : String) : Bool :=
  (List.range (s.data.length + 1)).any
    (fun i =>
      financFullFrom ((s.data.map Char.toLower).drop i) ||
      financShortFrom ((s.data.map Char.toLower).drop i))

/-- `helpers._find_section_ii_bounds`: Section II start row (explicit
title over the first 8 columns, else bare "II." over the first 6) and
exclusive end row (first Financiamientos row after the start). -/
def _find_section_ii_bounds (g : Grid) : Option ℕ × Option ℕ :=
  let start :=
    match _first_match_row g rxTitleII 8 0 with
    | some r => some r
    | Option.none => _first_match_row g rxRomanII 6 0
  match start with
  | some s => (some s, _first_match_row g rxFinanc 8 (s + 1))
  | Option.none => (Option.none, Option.none)

/-- `\w` of the date regex (ASCII word character). -/
def isWordChar (c : Char) : Bool := c.isAlphanum || c == '_'

/-- After "al \d{1,2}": match `\s+de\s+(\w+)\s+de\s+(\d{4})`, returning
the month word and the year. -/
def afterDay (l : List Char) : Option (String × ℕ) :=
  match (eatWs1 l).bind (eatLit "de".data) with
  | Option.none => Option.none
  | some l1 =>
    match eatWs1 l1 with
    | Option.none => Option.none
    | some l2 =>
      if l2.takeWhile isWordChar = [] then Option.none
      else
        match ((eatWs1 (l2.dropWhile isWordChar)).bind (eatLit "de".data)).bind eatWs1 with
        | Option.none => Option.none
        | some l4 =>
          match l4 with
          | d1 :: d2 :: d3 :: d4 :: _ =>
            if d1.isDigit ∧ d2.isDigit ∧ d3.isDigit ∧ d4.isDigit then
              some (String.mk (l2.takeWhile isWordChar), digitsVal [d1, d2, d3, d4])
            else Option.none
          | _ => Option.none

/-- Match of `al\s+(\d{1,2})\s+de\s+(\w+)\s+de\s+(\d{4})` starting at
this position (two-digit day tried first, as the regex backtracks). -/
def dateFrom (l : List Char) : Option (ℕ × String × ℕ) :=
  match l with
  | 'a' :: 'l' :: rest =>
    match eatWs1 rest with
    | some (c1 :: l2) =>
      if c1.isDigit then
        match l2 with
        | c2 :: l3 =>
          if c2.isDigit then
            match afterDay l3 with
            | some p => some (digitsVal [c1, c2], p)
            | Option.none => (afterDay l2).map (fun p => (digitsVal [c1], p))
          else (afterDay l2).map (fun p => (digitsVal [c1], p))
        | [] => Option.none
      else Option.none
    | _ => Option.none
  | _ => Option.none

/-- `_DATE_RX.search` (IGNORECASE): leftmost match over the text. -/
def dateSearch? (s : String) : Option (ℕ × String × ℕ) :=
  (List.range (s.data.length + 1)).findSome?
    (fun i => dateFrom ((s.data.map Char.toLower).drop i))

/-- `" ".join` of the stripped first `min 12 ncols` cells of row `r`. -/
def joinSpaceChars : List String → List Char
  | [] => []
  | [s] => s.data
  | s :: rest => s.data ++ ' ' :: joinSpaceChars rest

/-- The header text scanned for the statement date in row `r`. -/
def rowHeaderText (g : Grid) (r : ℕ) : String :=
  String.mk (joinSpaceChars
    (((g.rows.getD r []).take (min 12 g.ncols)).map
      (fun c => String.mk (trimChars (cellStr c).data))))

/-- `_MONTHS.get(month, 12)`: Spanish month name to number, default 12. -/
def monthNum (w : String) : ℕ :=
  if w = "enero" then 1 else if w = "febrero" then 2 else if w = "marzo" then 3
  else if w = "abril" then 4 else if w = "mayo" then 5 else if w = "junio" then 6
  else if w = "julio" then 7 else if w = "agosto" then 8 else if w = "septiembre" then 9
  else if w = "octubre" then 10 else if w = "noviembre" then 11 else if w = "diciembre" then 12
  else 12

/-- Two-digit zero padding (`{n:02d}`). -/
def pad2 (n : ℕ) : String := if n < 10 then "0" ++ toString n else toString n

/-- `_extract_fecha_y_cuarto`: scan the first 8 rows for the Spanish
date phrase; on a match return the ISO date, else the empty string.
`cuarto` is always "CP". -/
def _extract_fecha_y_cuarto (g : Grid) : String × String :=
  match (List.range (min 8 g.rows.length)).findSome?
      (fun r => dateSearch? (rowHeaderText g r)) with
  | some dwy => (toString dwy.2.2 ++ "-" ++ pad2 (monthNum dwy.2.1) ++ "-" ++ pad2 dwy.1, "CP")
  | Option.none => ("", "CP")

/-- Anchored match of the header-like pattern `^[A-Z]\.\s*`. -/
def rxHdr (s : String) : Bool :=
  match s.data with
  | c :: '.' :: _ => c.isUpper
  | _ => false

/-- Anchored match of the line-item pattern `^[a-z]\d+\)`. -/
def rxDet (s : String) : Bool :=
  match s.data with
  | c :: rest =>
    c.isLower && !(rest.takeWhile Char.isDigit).isEmpty &&
      ((rest.dropWhile Char.isDigit).head? == some ')')
  | [] => false

/-- Score of a candidate concept column: header-like matches plus
line-item matches over the column's stripped cells. -/
def colScore (g : Grid) (c : ℕ) : ℤ :=
  ((g.rows.countP (fun row => rxHdr (String.mk (trimChars (cellStr (cellOf row c)).data)))) : ℤ) +
  ((g.rows.countP (fun row => rxDet (String.mk (trimChars (cellStr (cellOf row c)).data)))) : ℤ)

/-- The concept-column scan loop over the first `n` columns: running
best (column, score), updated only on a strict improvement; the initial
best is column 1 with score -1. -/
def conceptFold (g : Grid) (n : ℕ) : ℕ × ℤ :=
  (List.range n).foldl
    (fun best c => if colScore g c > best.2 then (c, colScore g c) else best)
    ((1 : ℕ), (-1 : ℤ))

/-- `_detect_concept_col`: best-scoring column among the first
`min 16 ncols`, scanned left to right. -/
def _detect_concept_col (g : Grid) : ℕ := (conceptFold g (min 16 g.ncols)).1

/-- Cells of a block column that parse through the amount pipeline. -/
def colParses (rows : List (List Cell)) (c : ℕ) : ℕ :=
  rows.countP (fun row => (_normalize_then_clean (cellOf row c)).isSome)

/-- The detector's 20%-parse-ratio test (`parsed.notna().mean() >= 0.20`;
the mean of an empty block is NaN, which fails the comparison). -/
def colQualifies (rows : List (List Cell)) (c : ℕ) : Bool :=
  !rows.isEmpty && decide (rows.length ≤ 5 * colParses rows c)

/-- The qualifying amount columns, in left-to-right order: the columns
within 10 to the right of the concept column whose parse ratio is at
least 20%. -/
def amountCands (rows : List (List Cell)) (ccol ncols : ℕ) : List ℕ :=
  (List.range' (ccol + 1) (min ncols (ccol + 1 + 10) - (ccol + 1))).filter
    (colQualifies rows)

/-- `_detect_amount_cols`: the first six qualifying columns, padded to
six entries with the no-column sentinel (source: -1; here `none`). -/
def _detect_amount_cols (rows : List (List Cell)) (ccol ncols : ℕ) : List (Option ℕ) :=
  ((amountCands rows ccol ncols).map some ++ List.replicate 6 Option.none).take 6

/-- The `AttributeError` raised by `pick(-1).map(...)` in `_slice_block`:
for the -1 sentinel, `pick` returns a plain Python list, and lists have
no `.map` method. -/
def pickSentinelErr : String := "AttributeError: list object has no attribute map"

/-- Group 1 of `^([A-Z])\.\s*` formatted as "X." (clave_primaria). -/
def clavePrimaria (s : String) : Option String :=
  match s.data with
  | c :: '.' :: _ => if c.isUpper then some (String.mk [c, '.']) else Option.none
  | _ => Option.none

/-- Group 1 of `^([a-z]\d+)\)` (clave_secundaria). -/
def claveSecundaria (s : String) : Option String :=
  match s.data with
  | c :: rest =>
    if c.isLower ∧ (rest.takeWhile Char.isDigit) ≠ [] ∧
        (rest.dropWhile Char.isDigit).head? = some ')' then
      some (String.mk (c :: rest.takeWhile Char.isDigit))
    else Option.none
  | [] => Option.none

/-- A stripped concept rendered blank by pandas: "", "nan" or "None". -/
def conceptBlank (s : String) : Bool := s == "" || s == "nan" || s == "None"

/-- All six amount fields of a record are no-value. -/
def ingAllNull (o : IngOut) : Bool :=
  o.estimado.isNone && o.ampliaciones_reducciones.isNone && o.modificado.isNone &&
  o.devengado.isNone && o.recaudado.isNone && o.diferencia.isNone

/-- Build one block record for a row once all six role slots resolved to
real columns `a0`..`a5`, in the fixed role order estimado,
ampliaciones_reducciones, modificado, devengado, recaudado, diferencia:
stripped concept, `pick(a_i).map(_normalize_then_clean)` per role,
claves. Fecha/cuarto are assigned later by the transform (the block has
no such columns yet). -/
def ingMkRow (seccion : String) (a0 a1 a2 a3 a4 a5 ccol : ℕ) (row : List Cell) : IngOut :=
  { concepto := String.mk (trimChars (cellStr (cellOf row ccol)).data)
    estimado := _normalize_then_clean (cellOf row a0)
    ampliaciones_reducciones := _normalize_then_clean (cellOf row a1)
    modificado := _normalize_then_clean (cellOf row a2)
    devengado := _normalize_then_clean (cellOf row a3)
    recaudado := _normalize_then_clean (cellOf row a4)
    diferencia := _normalize_then_clean (cellOf row a5)
    clave_primaria := clavePrimaria (String.mk (trimChars (cellStr (cellOf row ccol)).data))
    clave_secundaria := claveSecundaria (String.mk (trimChars (cellStr (cellOf row ccol)).data))
    fecha := ""
    cuarto := ""
    seccion := seccion }

/-- `_slice_block`: rows `[r0, r1)` of the sheet with amount columns
detected inside the block. When all six role slots resolved to real
columns, really-empty rows (blank concept and all amounts missing) are
dropped and the records returned. When fewer than six columns qualify,
some role slot holds the -1 sentinel: the source's `pick(-1)` returns a
plain Python list whose `.map` raises `AttributeError`, so the block
fails (the error surfaces at the first sentinel role's assignment, but
the observable outcome of the call is the exception either way). -/
def _slice_block (g : Grid) (r0 r1 : ℕ) (seccion : String) (ccol : ℕ) :
    Except String (List IngOut) :=
  let blk := (g.rows.drop r0).take (r1 - r0)
  match _detect_amount_cols blk ccol g.ncols with
  | [some a0, some a1, some a2, some a3, some a4, some a5] =>
    Except.ok ((blk.map (ingMkRow seccion a0 a1 a2 a3 a4 a5 ccol)).filter
      (fun o => !(conceptBlank o.concepto && ingAllNull o)))
  | _ => Except.error pickSentinelErr

/-- Anchored match of the aggregate-total pattern `^\s*\([A-Z]\s*=`. -/
def ingIsTotal (s : String) : Bool :=
  match s.data.dropWhile Char.isWhitespace with
  | '(' :: c :: rest => c.isUpper && ((rest.dropWhile Char.isWhitespace).head? == some '=')
  | _ => false

/-- The "Ingresos de Libre Disposición" concept test (trimmed,
case-insensitive). -/
def ingILD (o : IngOut) : Bool :=
  String.mk ((trimChars o.concepto.data).map Char.toLower) == "ingresos de libre disposición"

/-- The section blocks of the revenue transform, concatenated: Section I
from the fixed start row 7 to the detected Section II start (or to the
end of the grid when no start is found), then Section II up to its
detected end (or the end of the grid). A block that hits the -1
sentinel path raises, and the exception propagates out of the
transform. -/
def ingFrames (g : Grid) : Except String (List IngOut) :=
  let ccol := _detect_concept_col g
  match (_find_section_ii_bounds g).1 with
  | some s =>
    let endII :=
      match (_find_section_ii_bounds g).2 with
      | some x => x
      | Option.none => g.rows.length
    match (if 7 < s then _slice_block g 7 s "I" ccol else Except.ok []) with
    | Except.error e => Except.error e
    | Except.ok f1 =>
      match (if s + 1 < endII then _slice_block g (s + 1) endII "II" ccol else Except.ok []) with
      | Except.error e => Except.error e
      | Except.ok f2 => Except.ok (f1 ++ f2)
  | Option.none =>
    if 7 < g.rows.length then _slice_block g 7 g.rows.length "I" ccol else Except.ok []

/-- The section records when every block resolved (empty on the
`AttributeError` path). -/
def ingFramesList (g : Grid) : List IngOut :=
  match ingFrames g with
  | Except.ok l => l
  | Except.error _ => []

/-- The transform's fecha value: the parsed statement date if the header
names one; else `{year}-12-31` when a (truthy) year is given; else "". -/
def ingFecha (g : Grid) (year : Option ℕ) : String :=
  let fecha0 := (_extract_fecha_y_cuarto g).1
  if fecha0 = "" ∧ year.getD 0 ≠ 0 then toString (year.getD 0) ++ "-12-31" else fecha0

/-- `transform_ingresos_detallado_cp_data`: empty input gives an empty
result; an `AttributeError` raised while slicing a block propagates;
otherwise the section blocks are filtered by the OR of the three data
filters (aggregate totals, amount-less "Ingresos de Libre
Disposición", blank-and-empty rows) and the period fields are assigned
(cuarto is always "CP"). -/
def transform_ingresos_detallado_cp_data (g : Grid) (year : Option ℕ) :
    Except String (List IngOut) :=
  if gridEmpty g then Except.ok []
  else
    match ingFrames g with
    | Except.error e => Except.error e
    | Except.ok pre =>
      if pre.isEmpty then Except.ok []
      else
        Except.ok ((pre.filter (fun o =>
            !(ingIsTotal o.concepto || (ingILD o && ingAllNull o) ||
              (conceptBlank o.concepto && ingAllNull o)))).map
          (fun o => { o with fecha := ingFecha g year, cuarto := "CP" }))

/-- The records produced by the revenue transform (empty on the error
path). -/
def ingOutput (g : Grid) (year : Option ℕ) : List IngOut :=
  match transform_ingresos_detallado_cp_data g year with
  | Except.ok out => out
  | Except.error _ => []

/-! ## Concrete grids used by the scenario theorems -/

/-- The melt roles of the balance transform, in `value_vars` order. -/
def balRoles : List String := ["estimated_or_approved", "devengado", "recaudado_pagado"]

/-- The end-to-end scenario grid of the spec (columns 1..4; the A1 row
appears twice, so the grid has five physical rows). -/
def c1grid : List BalRow :=
  [ ⟨Cell.str "A. Ingresos Totales (A=A1+A2+A3)", Cell.str "100", Cell.str "90", Cell.str "95"⟩,
    ⟨Cell.str "A1. Ingresos de Libre Disposición", Cell.str "1000", Cell.str "(50)", Cell.str "900"⟩,
    ⟨Cell.str "A1. Ingresos de Libre Disposición", Cell.str "1000", Cell.str "(50)", Cell.str "900"⟩,
    ⟨Cell.str "B1. Transferencias Federales", Cell.null, Cell.str "40", Cell.str "40"⟩,
    ⟨Cell.str "X. Not a code", Cell.str "1", Cell.str "2", Cell.str "3"⟩ ]

/-- A balance grid with two rows sharing the code A1. -/
def c2grid : List BalRow :=
  [ ⟨Cell.str "A1. Uno", Cell.str "1", Cell.str "2", Cell.str "3"⟩,
    ⟨Cell.str "A1. Dos", Cell.str "9", Cell.str "9", Cell.str "9"⟩ ]

/-- An expenditures grid with the section marker at row 9. -/
def c2eg : List EgRow :=
  [ ⟨Cell.str "", Cell.null, Cell.null, Cell.null, Cell.null, Cell.null, Cell.null⟩,
    ⟨Cell.str "", Cell.null, Cell.null, Cell.null, Cell.null, Cell.null, Cell.null⟩,
    ⟨Cell.str "", Cell.null, Cell.null, Cell.null, Cell.null, Cell.null, Cell.null⟩,
    ⟨Cell.str "", Cell.null, Cell.null, Cell.null, Cell.null, Cell.null, Cell.null⟩,
    ⟨Cell.str "", Cell.null, Cell.null, Cell.null, Cell.null, Cell.null, Cell.null⟩,
    ⟨Cell.str "", Cell.null, Cell.null, Cell.null, Cell.null, Cell.null, Cell.null⟩,
    ⟨Cell.str "", Cell.null, Cell.null, Cell.null, Cell.null, Cell.null, Cell.null⟩,
    ⟨Cell.str "", Cell.null, Cell.null, Cell.null, Cell.null, Cell.null, Cell.null⟩,
    ⟨Cell.str "A1) Uno", Cell.str "1", Cell.str "2", Cell.str "3", Cell.str "4", Cell.str "5", Cell.str "6"⟩,
    ⟨Cell.str "II. Gasto Etiquetado", Cell.null, Cell.null, Cell.null, Cell.null, Cell.null, Cell.null⟩,
    ⟨Cell.str "b2) Dos", Cell.str "1", Cell.str "2", Cell.str "3", Cell.str "4", Cell.str "5", Cell.str "6"⟩,
    ⟨Cell.str " ", Cell.null, Cell.null, Cell.null, Cell.null, Cell.null, Cell.null⟩ ]

/-- An expenditures grid (marker at row 9, a blank row closing Section II). -/
def c4eg : List EgRow :=
  [ ⟨Cell.str "x", Cell.null, Cell.null, Cell.null, Cell.null, Cell.null, Cell.null⟩,
    ⟨Cell.str "", Cell.null, Cell.null, Cell.null, Cell.null, Cell.null, Cell.null⟩,
    ⟨Cell.str "", Cell.null, Cell.null, Cell.null, Cell.null, Cell.null, Cell.null⟩,
    ⟨Cell.str "", Cell.null, Cell.null, Cell.null, Cell.null, Cell.null, Cell.null⟩,
    ⟨Cell.str "", Cell.null, Cell.null, Cell.null, Cell.null, Cell.null, Cell.null⟩,
    ⟨Cell.str "", Cell.null, Cell.null, Cell.null, Cell.null, Cell.null, Cell.null⟩,
    ⟨Cell.str "", Cell.null, Cell.null, Cell.null, Cell.null, Cell.null, Cell.null⟩,
    ⟨Cell.str "", Cell.null, Cell.null, Cell.null, Cell.null, Cell.null, Cell.null⟩,
    ⟨Cell.str "A1) Uno", Cell.str "1", Cell.str "2", Cell.str "3", Cell.str "4", Cell.str "5", Cell.str "6"⟩,
    ⟨Cell.str "II. Gasto Etiquetado", Cell.null, Cell.null, Cell.null, Cell.null, Cell.null, Cell.null⟩,
    ⟨Cell.str "b2) Dos", Cell.str "1", Cell.str "2", Cell.str "3", Cell.str "4", Cell.str "5", Cell.str "6"⟩,
    ⟨Cell.str " ", Cell.null, Cell.null, Cell.null, Cell.null, Cell.null, Cell.null⟩ ]

/-- A one-row block with a text column and one numeric column. -/
def c5rows : List (List Cell) := [[Cell.str "x", Cell.str "1"]]

/-- The same block as a two-column sheet. -/
def c5g : Grid := ⟨c5rows, 2⟩

/-- A one-row, two-column sheet with a header-like first cell. -/
def c7g : Grid := ⟨[[Cell.str "A. x", Cell.str "y"]], 2⟩

/-- A one-row balance grid with a missing estimated amount. -/
def c8grid : List BalRow :=
  [ ⟨Cell.str "A1. X", Cell.null, Cell.str "(50)", Cell.str "7"⟩ ]


/-- A two-column blank filler row. -/
def blankRow2 : List Cell := [Cell.str "", Cell.str ""]

/-- An eight-column blank filler row. -/
def blankRow8 : List Cell := List.replicate 8 (Cell.str "")

/-- A one-row block whose window holds six parseable amount columns. -/
def c5widerows : List (List Cell) :=
  [[Cell.str "x", Cell.str "1", Cell.str "2", Cell.str "3",
    Cell.str "4", Cell.str "5", Cell.str "6", Cell.str "7"]]

/-- The wide block as an eight-column sheet. -/
def c5wideg : Grid := ⟨c5widerows, 8⟩

/-- A marker-less nine-row, two-column sheet: its single Section I block
qualifies only one amount column, so slicing hits the -1 sentinel. -/
def c6fail : Grid := ⟨List.replicate 8 blankRow2 ++ [[Cell.str "a1) X", Cell.str "1"]], 2⟩

/-- A marker-less nine-row, eight-column sheet whose block resolves all
six amount roles. -/
def c6ok : Grid :=
  ⟨List.replicate 8 blankRow8 ++
    [[Cell.str "a1) X", Cell.str "1", Cell.str "2", Cell.str "3",
      Cell.str "4", Cell.str "5", Cell.str "6", Cell.str "7"]], 8⟩

/-- A non-empty narrow sheet that hits the sentinel path. -/
def c9fail : Grid := ⟨List.replicate 8 blankRow2 ++ [[Cell.str "c1) Z", Cell.str "4"]], 2⟩

/-- A non-empty wide sheet that completes. -/
def c9ok : Grid :=
  ⟨List.replicate 8 blankRow8 ++
    [[Cell.str "c1) Z", Cell.str "1", Cell.str "2", Cell.str "3",
      Cell.str "4", Cell.str "5", Cell.str "6", Cell.str "7"]], 8⟩

/-- A dateless narrow sheet that hits the sentinel path. -/
def c10fail : Grid := ⟨List.replicate 8 blankRow2 ++ [[Cell.str "b2) Y", Cell.str "3"]], 2⟩

/-- A dateless wide sheet that completes. -/
def c10ok : Grid :=
  ⟨List.replicate 8 blankRow8 ++
    [[Cell.str "b2) Y", Cell.str "10", Cell.str "20", Cell.str "30",
      Cell.str "40", Cell.str "50", Cell.str "60", Cell.str "70"]], 8⟩

/-- The empty sheet. -/
def c9e : Grid := ⟨[], 0⟩

/-! ## General lemmas about the embedding's building blocks -/

theorem filterOfMap {α β : Type} (f : α → β) (p : β → Bool) (l : List α) :
    (l.map f).filter p = (l.filter (fun a => p (f a))).map f := by
  induction l with
  | nil => rfl
  | cons a t ih =>
    simp only [List.map_cons, List.filter_cons]
    cases h : p (f a) <;> simp [h, ih]

theorem filterFalse {α : Type} (l : List α) (p : α → Bool) (h : ∀ a ∈ l, p a = false) :
    l.filter p = [] := by
  induction l with
  | nil => rfl
  | cons a t ih =>
    simp only [List.filter_cons, h a (by simp)]
    exact ih (fun x hx => h x (by simp [hx]))

theorem findSome?_eq_none {α β : Type} (f : α → Option β) (l : List α)
    (h : ∀ x ∈ l, f x = Option.none) : l.findSome? f = Option.none := by
  induction l with
  | nil => rfl
  | cons a t ih =>
    have ht : ∀ x ∈ t, f x = Option.none := fun x hx => h x (by simp [hx])
    simp [List.findSome?_cons, h a (by simp), ih ht]

theorem isEmpty_false_iff {α : Type} (l : List α) : l.isEmpty = false ↔ l ≠ [] := by
  cases l <;> simp

theorem getD_eq_get?OfList {α : Type} (d : α) :
    ∀ (l : List α) (i : ℕ), l.getD i d = (l.get? i).getD d := by
  intro l
  induction l with
  | nil => intro i; cases i <;> rfl
  | cons a t ih =>
    intro i
    cases i with
    | zero => rfl
    | succ j => exact ih j

theorem get?_replicateOf {α : Type} (a : α) :
    ∀ (n i : ℕ), (List.replicate n a).get? i = if i < n then some a else Option.none := by
  intro n
  induction n with
  | zero => intro i; simp
  | succ m ih =>
    intro i
    cases i with
    | zero => simp [List.replicate]
    | succ j =>
      rw [List.replicate, List.get?]
      rw [ih j]
      by_cases h : j < m
      · rw [if_pos h, if_pos (by omega)]
      · rw [if_neg h, if_neg (by omega)]

theorem dedupFirstBy_filter {α β : Type} [DecidableEq β] (f : α → β) (b : β) :
    ∀ (xs : List α) (seen : List β),
      (dedupFirstBy f xs seen).filter (fun x => decide (f x = b)) =
        if b ∈ seen then [] else (xs.find? (fun x => decide (f x = b))).toList := by
  intro xs
  induction xs with
  | nil => intro seen; cases Decidable.em (b ∈ seen) <;> simp [dedupFirstBy, *]
  | cons x t ih =>
    intro seen
    by_cases hseen : f x ∈ seen
    · rw [dedupFirstBy, if_pos hseen, ih seen]
      by_cases hb : b ∈ seen
      · simp [hb]
      · have hxb : ¬ (f x = b) := fun hfx => hb (hfx ▸ hseen)
        simp [hb, List.find?_cons, hxb]
    · rw [dedupFirstBy, if_neg hseen]
      by_cases hfx : f x = b
      · subst hfx
        have hb : ¬ (f x ∈ seen) := hseen
        rw [List.filter_cons]
        simp only [decide_True, if_pos rfl]
        rw [ih (f x :: seen)]
        simp [List.find?_cons, hb]
      · rw [List.filter_cons]
        have hd : (decide (f x = b)) = false := by simp [hfx]
        rw [hd]
        simp only [Bool.false_eq_true, if_false]
        rw [ih (f x :: seen)]
        by_cases hb : b ∈ seen
        · simp [hb, List.mem_cons]
        · have hbx : ¬ (b ∈ f x :: seen) := by
            simp [List.mem_cons, hb]
            intro hh
            exact hfx hh.symm
          simp [hbx, hb, List.find?_cons, hfx]

theorem dedupFirstBy_mem {α β : Type} [DecidableEq β] (f : α → β) :
    ∀ (xs : List α) (seen : List β) (x : α), x ∈ dedupFirstBy f xs seen → x ∈ xs := by
  intro xs
  induction xs with
  | nil => intro seen x h; simp [dedupFirstBy] at h
  | cons a t ih =>
    intro seen x h
    rw [dedupFirstBy] at h
    by_cases ha : f a ∈ seen
    · rw [if_pos ha] at h
      exact List.mem_cons_of_mem a (ih seen x h)
    · rw [if_neg ha] at h
      rcases List.mem_cons.1 h with h1 | h2
      · exact h1 ▸ List.mem_cons_self a t
      · exact List.mem_cons_of_mem a (ih _ x h2)

theorem findFirstIdx_some {α : Type} (p : α → Bool) :
    ∀ (l : List α) (j : ℕ), findFirstIdx p l = some j →
      (∃ a, l.get? j = some a ∧ p a = true) ∧
      (∀ i a, i < j → l.get? i = some a → p a = false) := by
  intro l
  induction l with
  | nil => intro j h; simp [findFirstIdx] at h
  | cons a t ih =>
    intro j h
    rw [findFirstIdx] at h
    by_cases hp : p a
    · rw [if_pos hp] at h
      cases h
      exact ⟨⟨a, rfl, hp⟩, fun i a hi => by omega⟩
    · rw [if_neg hp] at h
      cases hfi : findFirstIdx p t with
      | none => rw [hfi] at h; simp at h
      | some j' =>
        rw [hfi] at h
        simp only [Option.map_some'] at h
        cases h
        obtain ⟨⟨b, hb, hpb⟩, hlt⟩ := ih j' hfi
        refine ⟨⟨b, hb, hpb⟩, ?_⟩
        intro i c hi hc
        match i, hc with
        | 0, hc =>
          cases hc
          simp only [Bool.not_eq_true] at hp
          exact hp
        | i' + 1, hc => exact hlt i' c (by omega) hc

theorem findFirstIdx_none {α : Type} (p : α → Bool) :
    ∀ (l : List α), findFirstIdx p l = Option.none →
      ∀ i a, l.get? i = some a → p a = false := by
  intro l
  induction l with
  | nil => intro _ i a h; simp at h
  | cons a t ih =>
    intro h i c hc
    rw [findFirstIdx] at h
    by_cases hp : p a
    · simp [hp] at h
    · rw [if_neg hp] at h
      have h' : findFirstIdx p t = Option.none := by
        cases hfi : findFirstIdx p t with
        | none => rfl
        | some j => rw [hfi] at h; simp at h
      match i, hc with
      | 0, hc =>
        cases hc
        simp only [Bool.not_eq_true] at hp
        exact hp
      | i' + 1, hc => exact ih h' i' c hc

theorem transform_cp_data_eq (grid : List BalRow) (year : ℕ) :
    transform_cp_data grid year =
      (balSurvivors grid).map (balMk year "estimated_or_approved") ++
      (balSurvivors grid).map (balMk year "devengado") ++
      (balSurvivors grid).map (balMk year "recaudado_pagado") := by
  cases grid with
  | nil => rfl
  | cons a t => rfl

theorem extraer_fst (s : String) :
    (extraer_codigo_y_sublabel s).1 = codeAPrefix? s := by
  unfold extraer_codigo_y_sublabel
  cases h : codeAPrefix? s <;> simp [h]

theorem bal_filter_role (grid : List BalRow) (year : ℕ) (code : String) (role role' : String) :
    ((balSurvivors grid).map (balMk year role')).filter
        (fun o => decide (o.concept = some code ∧ o.type = role)) =
      if role' = role then
        ((balSurvivors grid).filter (fun r => decide (balCode r = some code))).map
          (balMk year role')
      else [] := by
  rw [filterOfMap]
  by_cases h : role' = role
  · subst h
    rw [if_pos rfl]
    congr 1
    apply List.filter_congr
    intro r hr
    simp [balMk, extraer_fst, balCode]
  · rw [if_neg h, filterFalse]
    · simp
    · intro r hr
      simp [balMk, h]

theorem egSectionI_get? (grid : List EgRow) (k j : ℕ) :
    (egSectionI grid k).get? j = if 8 + j < k then grid.get? (8 + j) else Option.none := by
  rw [egSectionI]
  by_cases h : 8 + j < k
  · rw [if_pos h, List.get?_take (by omega), List.get?_drop]
  · rw [if_neg h, List.get?_eq_none]
    calc ((grid.drop 8).take (k - 8)).length ≤ k - 8 := by
          rw [List.length_take]; omega
      _ ≤ j := by omega

theorem egSectionII_get? (grid : List EgRow) (k j : ℕ) :
    (egSectionII grid k).get? j =
      if k + 1 + j < egFin grid k then grid.get? (k + 1 + j) else Option.none := by
  rw [egSectionII]
  by_cases h : k + 1 + j < egFin grid k
  · rw [if_pos h, List.get?_take (by omega), List.get?_drop]
  · rw [if_neg h, List.get?_eq_none]
    calc ((grid.drop (k + 1)).take (egFin grid k - (k + 1))).length ≤ egFin grid k - (k + 1) := by
          rw [List.length_take]; omega
      _ ≤ j := by omega

theorem egFin_le_length (grid : List EgRow) (k : ℕ) : egFin grid k ≤ grid.length := by
  cases h : findFirstIdx egBlankRow (grid.drop (k + 1)) with
  | none => simp [egFin, h]
  | some j =>
    have hfe : egFin grid k = k + 1 + j := by simp [egFin, h]
    obtain ⟨⟨a, ha, _⟩, _⟩ := findFirstIdx_some egBlankRow _ j h
    rw [List.get?_drop] at ha
    rw [hfe]
    by_contra hgt
    rw [(List.get?_eq_none).2 (by omega)] at ha
    cases ha

theorem egFin_no_blank (grid : List EgRow) (k : ℕ) :
    ∀ i r, k + 1 ≤ i → i < egFin grid k → grid.get? i = some r → egBlankRow r = false := by
  intro i r hi1 hi2 hget
  cases h : findFirstIdx egBlankRow (grid.drop (k + 1)) with
  | none =>
    have := findFirstIdx_none egBlankRow _ h (i - (k + 1)) r
    rw [List.get?_drop] at this
    exact this (by rw [show k + 1 + (i - (k + 1)) = i by omega]; exact hget)
  | some j =>
    rw [show egFin grid k = k + 1 + j by simp [egFin, h]] at hi2
    obtain ⟨_, hlt⟩ := findFirstIdx_some egBlankRow _ j h
    have := hlt (i - (k + 1)) r (by omega)
    rw [List.get?_drop] at this
    exact this (by rw [show k + 1 + (i - (k + 1)) = i by omega]; exact hget)

theorem egFin_blank_or_end (grid : List EgRow) (k : ℕ) :
    egFin grid k = grid.length ∨
      ∃ r, grid.get? (egFin grid k) = some r ∧ egBlankRow r = true := by
  cases h : findFirstIdx egBlankRow (grid.drop (k + 1)) with
  | none => left; simp [egFin, h]
  | some j =>
    right
    rw [show egFin grid k = k + 1 + j by simp [egFin, h]]
    obtain ⟨⟨a, ha, hba⟩, _⟩ := findFirstIdx_some egBlankRow _ j h
    rw [List.get?_drop] at ha
    exact ⟨a, ha, hba⟩

theorem colScore_nonneg (g : Grid) (c : ℕ) : 0 ≤ colScore g c := by
  rw [colScore]
  have h1 : (0 : ℤ) ≤ ((g.rows.countP
      (fun row => rxHdr (String.mk (trimChars (cellStr (cellOf row c)).data)))) : ℤ) :=
    Int.natCast_nonneg _
  have h2 : (0 : ℤ) ≤ ((g.rows.countP
      (fun row => rxDet (String.mk (trimChars (cellStr (cellOf row c)).data)))) : ℤ) :=
    Int.natCast_nonneg _
  omega

theorem conceptFold_succ (g : Grid) (m : ℕ) :
    conceptFold g (m + 1) =
      if colScore g m > (conceptFold g m).2 then (m, colScore g m) else conceptFold g m := by
  rw [conceptFold, conceptFold, List.range_succ, List.foldl_append, List.foldl_cons,
    List.foldl_nil]

theorem conceptFold_spec (g : Grid) :
    ∀ n, 0 < n →
      (conceptFold g n).1 < n ∧ (conceptFold g n).2 = colScore g (conceptFold g n).1 ∧
      (∀ c, c < n → colScore g c ≤ (conceptFold g n).2) ∧
      (∀ c, c < n → colScore g c = (conceptFold g n).2 → (conceptFold g n).1 ≤ c) := by
  intro n
  induction n with
  | zero => omega
  | succ m ih =>
    intro _
    by_cases hm : 0 < m
    · obtain ⟨ih1, ih2, ih3, ih4⟩ := ih hm
      rw [conceptFold_succ]
      by_cases hgt : colScore g m > (conceptFold g m).2
      · rw [if_pos hgt]
        refine ⟨by omega, rfl, ?_, ?_⟩
        · intro c hc
          rcases Nat.lt_succ_iff_lt_or_eq.1 hc with h | h
          · have := ih3 c h
            simp only [gt_iff_lt] at hgt
            omega
          · subst h
            exact le_refl _
        · intro c hc hceq
          rcases Nat.lt_succ_iff_lt_or_eq.1 hc with h | h
          · have := ih3 c h
            simp only [gt_iff_lt] at hgt
            omega
          · omega
      · rw [if_neg hgt]
        simp only [gt_iff_lt, not_lt] at hgt
        refine ⟨by omega, ih2, ?_, ?_⟩
        · intro c hc
          rcases Nat.lt_succ_iff_lt_or_eq.1 hc with h | h
          · exact ih3 c h
          · subst h
            exact hgt
        · intro c hc hceq
          rcases Nat.lt_succ_iff_lt_or_eq.1 hc with h | h
          · exact ih4 c h hceq
          · omega
    · have hm0 : m = 0 := by omega
      subst hm0
      have h0 : colScore g 0 > (-1 : ℤ) := by
        have := colScore_nonneg g 0
        omega
      have hcf : conceptFold g 1 = (0, colScore g 0) := by
        rw [conceptFold_succ]
        rw [if_pos (by rw [conceptFold]; simpa using h0)]
      rw [hcf]
      refine ⟨by omega, rfl, ?_, ?_⟩
      · intro c hc
        have : c = 0 := by omega
        subst this
        exact le_refl _
      · intro c hc _
        omega

theorem detect_amount_getD (rows : List (List Cell)) (ccol ncols : ℕ) (i : ℕ) (hi : i < 6) :
    (_detect_amount_cols rows ccol ncols).getD i Option.none =
      (amountCands rows ccol ncols).get? i := by
  rw [_detect_amount_cols, getD_eq_get?OfList, List.get?_take hi]
  by_cases h : i < (amountCands rows ccol ncols).length
  · rw [List.get?_append (by rw [List.length_map]; exact h), List.get?_map]
    cases hg : (amountCands rows ccol ncols).get? i with
    | none => rw [List.get?_eq_none] at hg; omega
    | some c => rfl
  · rw [List.get?_append_right (by rw [List.length_map]; omega)]
    rw [List.length_map, get?_replicateOf, if_pos (by omega)]
    rw [(List.get?_eq_none).2 (by omega)]
    rfl

/-! ## The claims -/

/-- C1: transforming the end-to-end scenario grid (`c1grid`) for year
2020 yields exactly 6 output rows — codes A1 and B1, each expanded into
one record per amount role — every row carrying year_quarter "2020_CP"
and full_date "2020-12-31", the A1/devengado amount -50.0 and the
B1/estimated_or_approved amount null. -/
theorem c1_balance_end_to_end :
    (transform_cp_data c1grid 2020).length = 6 ∧
    (transform_cp_data c1grid 2020).countP (fun o => decide (o.concept = some "A1")) = 3 ∧
    (transform_cp_data c1grid 2020).countP (fun o => decide (o.concept = some "B1")) = 3 ∧
    (transform_cp_data c1grid 2020).countP
      (fun o => decide (o.concept = some "A1" ∧ o.type = "estimated_or_approved")) = 1 ∧
    (transform_cp_data c1grid 2020).countP
      (fun o => decide (o.concept = some "A1" ∧ o.type = "devengado")) = 1 ∧
    (transform_cp_data c1grid 2020).countP
      (fun o => decide (o.concept = some "A1" ∧ o.type = "recaudado_pagado")) = 1 ∧
    (transform_cp_data c1grid 2020).countP
      (fun o => decide (o.concept = some "B1" ∧ o.type = "estimated_or_approved")) = 1 ∧
    (transform_cp_data c1grid 2020).countP
      (fun o => decide (o.concept = some "B1" ∧ o.type = "devengado")) = 1 ∧
    (transform_cp_data c1grid 2020).countP
      (fun o => decide (o.concept = some "B1" ∧ o.type = "recaudado_pagado")) = 1 ∧
    (transform_cp_data c1grid 2020).countP
      (fun o => decide (o.year_quarter = "2020_CP" ∧ o.full_date = "2020-12-31")) = 6 ∧
    (transform_cp_data c1grid 2020).countP
      (fun o => decide (o.concept = some "A1" ∧ o.type = "devengado" ∧
        o.amount = some (-50))) = 1 ∧
    (transform_cp_data c1grid 2020).countP
      (fun o => decide (o.concept = some "B1" ∧ o.type = "estimated_or_approved" ∧
        o.amount = Option.none)) = 1 := by
  decide

/-- C2 fails as stated for the balance dataset: on a grid with two A1
rows the transform output holds three records for code A1 (one per melt
role), not exactly one. -/
theorem c2_counterexample :
    ¬ ((transform_cp_data c2grid 2020).countP
        (fun o => decide (o.concept = some "A1")) = 1) ∧
    (transform_cp_data c2grid 2020).countP
        (fun o => decide (o.concept = some "A1")) = 3 := by
  decide

/-- C2 (amended): when kept rows share an extracted code, the balance
transform holds exactly one record per code and amount role — the
filter by (code, role) equals the singleton built from the first kept
row with that code — and the expenditures transform holds, within each
section independently, exactly one record per code, built from the
section's first row with that code; later duplicates are discarded. -/
theorem c2_dedup_amended :
    (∀ (grid : List BalRow) (year : ℕ) (code : String) (role : String), role ∈ balRoles →
      (transform_cp_data grid year).filter
          (fun o => decide (o.concept = some code ∧ o.type = role)) =
        ((balKept grid).find? (fun r => decide (balCode r = some code))).toList.map
          (balMk year role)) ∧
    (∀ (grid : List EgRow) (year : ℕ) (k : ℕ) (code : String),
      findFirstIdx (fun r => egMarkerMatch (cellStr r.c1)) grid = some k →
      ((egOutput grid year).filter (fun o => decide (o.seccion = "I" ∧ o.codigo = code)) =
        ((egKept (egSectionI grid k)).find? (fun r => decide (egKey r = some code))).toList.map
          (fun r => { egMkOut (toString year ++ "-12-31") "CP" r with seccion := "I" }) ∧
       (egOutput grid year).filter (fun o => decide (o.seccion = "II" ∧ o.codigo = code)) =
        ((egKept (egSectionII grid k)).find? (fun r => decide (egKey r = some code))).toList.map
          (fun r => { egMkOut (toString year ++ "-12-31") "CP" r with seccion := "II" }))) := by
  constructor
  · intro grid year code role hrole
    rw [transform_cp_data_eq]
    rw [List.filter_append, List.filter_append]
    rw [bal_filter_role, bal_filter_role, bal_filter_role]
    have hdedup := dedupFirstBy_filter balCode (some code) (balKept grid) []
    simp only [List.not_mem_nil, if_false] at hdedup
    have hrole' : role = "estimated_or_approved" ∨ role = "devengado" ∨
        role = "recaudado_pagado" := by simpa [balRoles] using hrole
    rcases hrole' with h | h | h <;> subst h
    · rw [if_pos rfl, if_neg (by decide), if_neg (by decide)]
      rw [balSurvivors, hdedup]
      simp
    · rw [if_neg (by decide), if_pos rfl, if_neg (by decide)]
      rw [balSurvivors, hdedup]
      simp
    · rw [if_neg (by decide), if_neg (by decide), if_pos rfl]
      rw [balSurvivors, hdedup]
      simp
  · intro grid year k code hk
    have hne : grid ≠ [] := by
      intro h
      rw [h] at hk
      simp [findFirstIdx] at hk
    have hout : egOutput grid year =
        (procesar_tabla (egSectionI grid k) (toString year ++ "-12-31") "CP").map
            (fun o : EgOut => { o with seccion := "I" }) ++
          (procesar_tabla (egSectionII grid k) (toString year ++ "-12-31") "CP").map
            (fun o : EgOut => { o with seccion := "II" }) := by
      cases grid with
      | nil => exact absurd rfl hne
      | cons a t =>
        rw [egOutput, transform_egresos_detallado_cp_data]
        simp only [List.isEmpty_cons, if_false, Bool.false_eq_true]
        rw [hk]
    have hsecI : ∀ rows : List EgRow,
        ((procesar_tabla rows (toString year ++ "-12-31") "CP").map
            (fun o : EgOut => { o with seccion := "I" })).filter
          (fun o => decide (o.seccion = "I" ∧ o.codigo = code)) =
        ((egKept rows).find? (fun r => decide (egKey r = some code))).toList.map
          (fun r => { egMkOut (toString year ++ "-12-31") "CP" r with seccion := "I" }) := by
      intro rows
      rw [procesar_tabla, List.map_map, filterOfMap]
      have hcongr : (dedupFirstBy egKey (egKept rows) []).filter
            (fun r => decide ((((fun o : EgOut => { o with seccion := "I" }) ∘
                egMkOut (toString year ++ "-12-31") "CP") r).seccion = "I" ∧
              (((fun o : EgOut => { o with seccion := "I" }) ∘
                egMkOut (toString year ++ "-12-31") "CP") r).codigo = code)) =
          (dedupFirstBy egKey (egKept rows) []).filter
            (fun r => decide (egKey r = some code)) := by
        apply List.filter_congr
        intro r hr
        have hr' : r ∈ egKept rows := dedupFirstBy_mem egKey _ _ r hr
        have hs : (egKey r).isSome := by
          have := (List.mem_filter.1 hr').2
          simpa using this
        obtain ⟨c, hc⟩ := Option.isSome_iff_exists.1 hs
        simp [egMkOut, Function.comp, hc]
      rw [hcongr]
      rw [dedupFirstBy_filter egKey (some code) (egKept rows) []]
      simp [Function.comp]
    have hsecII : ∀ rows : List EgRow,
        ((procesar_tabla rows (toString year ++ "-12-31") "CP").map
            (fun o : EgOut => { o with seccion := "II" })).filter
          (fun o => decide (o.seccion = "I" ∧ o.codigo = code)) = [] := by
      intro rows
      apply filterFalse
      intro o ho
      obtain ⟨o', _, ho'⟩ := List.mem_map.1 ho
      subst ho'
      simp
    have hsecII2 : ∀ rows : List EgRow,
        ((procesar_tabla rows (toString year ++ "-12-31") "CP").map
            (fun o : EgOut => { o with seccion := "I" })).filter
          (fun o => decide (o.seccion = "II" ∧ o.codigo = code)) = [] := by
      intro rows
      apply filterFalse
      intro o ho
      obtain ⟨o', _, ho'⟩ := List.mem_map.1 ho
      subst ho'
      simp
    have hsecI2 : ∀ rows : List EgRow,
        ((procesar_tabla rows (toString year ++ "-12-31") "CP").map
            (fun o : EgOut => { o with seccion := "II" })).filter
          (fun o => decide (o.seccion = "II" ∧ o.codigo = code)) =
        ((egKept rows).find? (fun r => decide (egKey r = some code))).toList.map
          (fun r => { egMkOut (toString year ++ "-12-31") "CP" r with seccion := "II" }) := by
      intro rows
      rw [procesar_tabla, List.map_map, filterOfMap]
      have hcongr : (dedupFirstBy egKey (egKept rows) []).filter
            (fun r => decide ((((fun o : EgOut => { o with seccion := "II" }) ∘
                egMkOut (toString year ++ "-12-31") "CP") r).seccion = "II" ∧
              (((fun o : EgOut => { o with seccion := "II" }) ∘
                egMkOut (toString year ++ "-12-31") "CP") r).codigo = code)) =
          (dedupFirstBy egKey (egKept rows) []).filter
            (fun r => decide (egKey r = some code)) := by
        apply List.filter_congr
        intro r hr
        have hr' : r ∈ egKept rows := dedupFirstBy_mem egKey _ _ r hr
        have hs : (egKey r).isSome := by
          have := (List.mem_filter.1 hr').2
          simpa using this
        obtain ⟨c, hc⟩ := Option.isSome_iff_exists.1 hs
        simp [egMkOut, Function.comp, hc]
      rw [hcongr]
      rw [dedupFirstBy_filter egKey (some code) (egKept rows) []]
      simp [Function.comp]
    rw [hout]
    constructor
    · rw [List.filter_append, hsecI, hsecII, List.append_nil]
    · rw [List.filter_append, hsecII2, hsecI2, List.nil_append]

/-- Witness for the amended C2 at concrete balance and expenditure grids. -/
theorem c2_dedup_amended_witness :
    (transform_cp_data c2grid 2020).filter
        (fun o => decide (o.concept = some "A1" ∧ o.type = "devengado")) =
      ((balKept c2grid).find? (fun r => decide (balCode r = some "A1"))).toList.map
        (balMk 2020 "devengado") ∧
    (egOutput c2eg 2021).filter (fun o => decide (o.seccion = "II" ∧ o.codigo = "B2")) =
      ((egKept (egSectionII c2eg 9)).find? (fun r => decide (egKey r = some "B2"))).toList.map
        (fun r : EgRow => { egMkOut (toString 2021 ++ "-12-31") "CP" r with seccion := "II" }) :=
  ⟨c2_dedup_amended.1 c2grid 2020 "A1" "devengado" (by decide),
   (c2_dedup_amended.2 c2eg 2021 9 "B2" (by decide)).2⟩

/-- C3: the composed amount pipeline (accounting normalization applied
before numeric parsing) maps "1,000" to 1000.0, "(50)", "50-" and the
Unicode-minus "−50" to -50.0, and the empty string, the "nan" literal
and null input to no-value; the pipeline is a total Lean function
mirroring the source's catch-all except branches, so it never raises on
any input. -/
theorem c3_amount_pipeline :
    _normalize_then_clean (Cell.str "1,000") = some 1000 ∧
    _normalize_then_clean (Cell.str "(50)") = some (-50) ∧
    _normalize_then_clean (Cell.str "50-") = some (-50) ∧
    _normalize_then_clean (Cell.str "−50") = some (-50) ∧
    _normalize_then_clean (Cell.str "") = Option.none ∧
    _normalize_then_clean (Cell.str "nan") = Option.none ∧
    _normalize_then_clean Cell.null = Option.none := by
  decide

/-- C4 fails as stated on the empty grid: no row matches the marker
pattern, yet the transform returns an empty ok result instead of
signalling a fatal error. -/
theorem c4_counterexample :
    findFirstIdx (fun r => egMarkerMatch (cellStr r.c1)) ([] : List EgRow) = Option.none ∧
    transform_egresos_detallado_cp_data ([] : List EgRow) 2020 = Except.ok [] :=
  ⟨rfl, rfl⟩

/-- C4 (amended): for every non-empty grid the expenditures transform
signals a fatal error iff no row of column 1 matches
`^\s*II\.\s*Gasto Etiquetado`; when the marker is at row k, Section I
is exactly rows 8..k-1, and Section II is exactly the rows after k up
to (excluding) `egFin` — which is past no blank text cell, and is
either the end of the grid or the first blank text cell after k. -/
theorem c4_sections_amended (grid : List EgRow) (year : ℕ) (hne : grid ≠ []) :
    ((∃ e, transform_egresos_detallado_cp_data grid year = Except.error e) ↔
      findFirstIdx (fun r => egMarkerMatch (cellStr r.c1)) grid = Option.none) ∧
    (∀ k, findFirstIdx (fun r => egMarkerMatch (cellStr r.c1)) grid = some k →
      (transform_egresos_detallado_cp_data grid year =
        Except.ok
          ((procesar_tabla (egSectionI grid k) (toString year ++ "-12-31") "CP").map
              (fun o : EgOut => { o with seccion := "I" }) ++
            (procesar_tabla (egSectionII grid k) (toString year ++ "-12-31") "CP").map
              (fun o : EgOut => { o with seccion := "II" })) ∧
        (∀ j, (egSectionI grid k).get? j =
          if 8 + j < k then grid.get? (8 + j) else Option.none) ∧
        (∀ j, (egSectionII grid k).get? j =
          if k + 1 + j < egFin grid k then grid.get? (k + 1 + j) else Option.none) ∧
        egFin grid k ≤ grid.length ∧
        (∀ i r, k + 1 ≤ i → i < egFin grid k → grid.get? i = some r → egBlankRow r = false) ∧
        (egFin grid k = grid.length ∨
          ∃ r, grid.get? (egFin grid k) = some r ∧ egBlankRow r = true))) := by
  cases grid with
  | nil => exact absurd rfl hne
  | cons a t =>
    constructor
    · cases hf : findFirstIdx (fun r => egMarkerMatch (cellStr r.c1)) (a :: t) with
      | none =>
        refine ⟨fun _ => rfl, fun _ => ?_⟩
        refine ⟨"Header II. Gasto Etiquetado not found.", ?_⟩
        rw [transform_egresos_detallado_cp_data]
        simp only [List.isEmpty_cons, Bool.false_eq_true, if_false]
        rw [hf]
      | some k =>
        constructor
        · rintro ⟨e, he⟩
          rw [transform_egresos_detallado_cp_data] at he
          simp only [List.isEmpty_cons, Bool.false_eq_true, if_false] at he
          rw [hf] at he
          exact Except.noConfusion he
        · intro h
          exact absurd h (by simp)
    · intro k hk
      refine ⟨?_, egSectionI_get? _ k, egSectionII_get? _ k, egFin_le_length _ k,
        egFin_no_blank _ k, egFin_blank_or_end _ k⟩
      rw [transform_egresos_detallado_cp_data]
      simp only [List.isEmpty_cons, Bool.false_eq_true, if_false]
      rw [hk]

/-- Witness for the amended C4 at a concrete grid with the marker at row 9. -/
theorem c4_sections_amended_witness :
    transform_egresos_detallado_cp_data c4eg 2022 =
      Except.ok
        ((procesar_tabla (egSectionI c4eg 9) (toString 2022 ++ "-12-31") "CP").map
            (fun o : EgOut => { o with seccion := "I" }) ++
          (procesar_tabla (egSectionII c4eg 9) (toString 2022 ++ "-12-31") "CP").map
            (fun o : EgOut => { o with seccion := "II" })) ∧
    (egSectionI c4eg 9).get? 0 = (if 8 + 0 < 9 then c4eg.get? (8 + 0) else Option.none) ∧
    egFin c4eg 9 ≤ c4eg.length :=
  ⟨(((c4_sections_amended c4eg 2022 (by decide)).2) 9 (by decide)).1,
   ((((c4_sections_amended c4eg 2022 (by decide)).2) 9 (by decide)).2.1) 0,
   (((c4_sections_amended c4eg 2022 (by decide)).2) 9 (by decide)).2.2.2.1⟩

/-- C7: the concept-column detector returns a column among the first
`min 16 ncols` whose header-like plus line-item score is maximal, and
on ties the lowest-index column with that score. -/
theorem c7_concept_col (g : Grid) (h : 0 < g.ncols) :
    _detect_concept_col g < min 16 g.ncols ∧
    (∀ c, c < min 16 g.ncols → colScore g c ≤ colScore g (_detect_concept_col g)) ∧
    (∀ c, c < min 16 g.ncols → colScore g c = colScore g (_detect_concept_col g) →
      _detect_concept_col g ≤ c) := by
  have hn : 0 < min 16 g.ncols := by omega
  obtain ⟨h1, h2, h3, h4⟩ := conceptFold_spec g (min 16 g.ncols) hn
  rw [_detect_concept_col]
  refine ⟨h1, ?_, ?_⟩
  · intro c hc
    have := h3 c hc
    rw [h2] at this
    exact this
  · intro c hc hceq
    exact h4 c hc (by rw [h2]; exact hceq)

/-- Witness for C7 at a concrete two-column sheet. -/
theorem c7_concept_col_witness :
    _detect_concept_col c7g < min 16 c7g.ncols ∧
    colScore c7g 1 ≤ colScore c7g (_detect_concept_col c7g) :=
  ⟨(c7_concept_col c7g (by decide)).1,
   (c7_concept_col c7g (by decide)).2.1 1 (by decide)⟩

/-- C8: the balance transform yields exactly 3N records for N surviving
deduplicated rows; the records at positions j, N+j and 2N+j are the
estimated_or_approved / devengado / recaudado_pagado expansions of
surviving row j, sharing concept and sublabel, with year_quarter
`{year}_CP` and full_date `{year}-12-31`; a null amount cell yields a
null amount (never zero) in the corresponding record. -/
theorem c8_balance_reshape (grid : List BalRow) (year : ℕ) :
    (transform_cp_data grid year).length = 3 * (balSurvivors grid).length ∧
    (∀ j, j < (balSurvivors grid).length →
      (transform_cp_data grid year).get? j =
        ((balSurvivors grid).get? j).map (balMk year "estimated_or_approved") ∧
      (transform_cp_data grid year).get? ((balSurvivors grid).length + j) =
        ((balSurvivors grid).get? j).map (balMk year "devengado") ∧
      (transform_cp_data grid year).get? (2 * (balSurvivors grid).length + j) =
        ((balSurvivors grid).get? j).map (balMk year "recaudado_pagado") ∧
      ((transform_cp_data grid year).get? j).map BalOut.concept =
        ((transform_cp_data grid year).get? ((balSurvivors grid).length + j)).map BalOut.concept ∧
      ((transform_cp_data grid year).get? ((balSurvivors grid).length + j)).map BalOut.concept =
        ((transform_cp_data grid year).get? (2 * (balSurvivors grid).length + j)).map BalOut.concept ∧
      ((transform_cp_data grid year).get? j).map BalOut.sublabel =
        ((transform_cp_data grid year).get? ((balSurvivors grid).length + j)).map BalOut.sublabel ∧
      ((transform_cp_data grid year).get? ((balSurvivors grid).length + j)).map BalOut.sublabel =
        ((transform_cp_data grid year).get? (2 * (balSurvivors grid).length + j)).map BalOut.sublabel ∧
      ((transform_cp_data grid year).get? j).map BalOut.year_quarter =
        some (toString year ++ "_CP") ∧
      ((transform_cp_data grid year).get? ((balSurvivors grid).length + j)).map BalOut.year_quarter =
        some (toString year ++ "_CP") ∧
      ((transform_cp_data grid year).get? (2 * (balSurvivors grid).length + j)).map BalOut.year_quarter =
        some (toString year ++ "_CP") ∧
      ((transform_cp_data grid year).get? j).map BalOut.full_date =
        some (toString year ++ "-12-31") ∧
      ((transform_cp_data grid year).get? ((balSurvivors grid).length + j)).map BalOut.full_date =
        some (toString year ++ "-12-31") ∧
      ((transform_cp_data grid year).get? (2 * (balSurvivors grid).length + j)).map BalOut.full_date =
        some (toString year ++ "-12-31") ∧
      (((balSurvivors grid).get? j).map BalRow.c2 = some Cell.null →
        ((transform_cp_data grid year).get? j).map BalOut.amount = some Option.none) ∧
      (((balSurvivors grid).get? j).map BalRow.c3 = some Cell.null →
        ((transform_cp_data grid year).get? ((balSurvivors grid).length + j)).map BalOut.amount =
          some Option.none) ∧
      (((balSurvivors grid).get? j).map BalRow.c4 = some Cell.null →
        ((transform_cp_data grid year).get? (2 * (balSurvivors grid).length + j)).map BalOut.amount =
          some Option.none)) := by
  have heq := transform_cp_data_eq grid year
  constructor
  · rw [heq]
    simp only [List.length_append, List.length_map]
    ring
  · intro j hj
    obtain ⟨r, hr⟩ : ∃ r, (balSurvivors grid).get? j = some r := by
      cases h : (balSurvivors grid).get? j with
      | none => rw [List.get?_eq_none] at h; omega
      | some r => exact ⟨r, rfl⟩
    have lenA : ((balSurvivors grid).map (balMk year "estimated_or_approved")).length =
        (balSurvivors grid).length := List.length_map _ _
    have lenB : ((balSurvivors grid).map (balMk year "devengado")).length =
        (balSurvivors grid).length := List.length_map _ _
    have h1 : (transform_cp_data grid year).get? j =
        ((balSurvivors grid).get? j).map (balMk year "estimated_or_approved") := by
      rw [heq, List.append_assoc, List.get?_append (by rw [lenA]; exact hj), List.get?_map]
    have h2 : (transform_cp_data grid year).get? ((balSurvivors grid).length + j) =
        ((balSurvivors grid).get? j).map (balMk year "devengado") := by
      rw [heq, List.append_assoc, List.get?_append_right (by rw [lenA]; omega),
        List.get?_append (by rw [lenA]; rw [lenB]; omega)]
      rw [lenA]
      have : (balSurvivors grid).length + j - (balSurvivors grid).length = j := by omega
      rw [this, List.get?_map]
    have h3 : (transform_cp_data grid year).get? (2 * (balSurvivors grid).length + j) =
        ((balSurvivors grid).get? j).map (balMk year "recaudado_pagado") := by
      rw [heq, List.append_assoc, List.get?_append_right (by rw [lenA]; omega),
        List.get?_append_right (by rw [lenA, lenB]; omega)]
      rw [lenA, lenB]
      have : 2 * (balSurvivors grid).length + j - (balSurvivors grid).length -
          (balSurvivors grid).length = j := by omega
      rw [this, List.get?_map]
    refine ⟨h1, h2, h3, ?_, ?_, ?_, ?_, ?_, ?_, ?_, ?_, ?_, ?_, ?_, ?_, ?_⟩
    · rw [h1, h2, hr]; rfl
    · rw [h2, h3, hr]; rfl
    · rw [h1, h2, hr]; rfl
    · rw [h2, h3, hr]; rfl
    · rw [h1, hr]; rfl
    · rw [h2, hr]; rfl
    · rw [h3, hr]; rfl
    · rw [h1, hr]; rfl
    · rw [h2, hr]; rfl
    · rw [h3, hr]; rfl
    · intro hc
      rw [hr] at hc
      have hc2 : r.c2 = Cell.null := by simpa using hc
      rw [h1, hr]
      simp only [Option.map_some']
      have : (balMk year "estimated_or_approved" r).amount =
          clean_amount (_normalize_amount_for_cp r.c2) := rfl
      rw [this, hc2]
      rfl
    · intro hc
      rw [hr] at hc
      have hc3 : r.c3 = Cell.null := by simpa using hc
      rw [h2, hr]
      simp only [Option.map_some']
      have : (balMk year "devengado" r).amount =
          clean_amount (_normalize_amount_for_cp r.c3) := rfl
      rw [this, hc3]
      rfl
    · intro hc
      rw [hr] at hc
      have hc4 : r.c4 = Cell.null := by simpa using hc
      rw [h3, hr]
      simp only [Option.map_some']
      have : (balMk year "recaudado_pagado" r).amount =
          clean_amount (_normalize_amount_for_cp r.c4) := rfl
      rw [this, hc4]
      rfl

/-- Witness for C8 at a concrete one-row grid with a null amount. -/
theorem c8_balance_reshape_witness :
    (transform_cp_data c8grid 2022).length = 3 * (balSurvivors c8grid).length ∧
    (transform_cp_data c8grid 2022).get? 0 =
      ((balSurvivors c8grid).get? 0).map (balMk 2022 "estimated_or_approved") ∧
    ((transform_cp_data c8grid 2022).get? 0).map BalOut.amount = some Option.none := by
  obtain ⟨hlen, hj⟩ := c8_balance_reshape c8grid 2022
  obtain ⟨h1, _, _, rest⟩ := hj 0 (by decide)
  exact ⟨hlen, h1, rest.2.2.2.2.2.2.2.2.2.2.1 (by decide)⟩


/-- C5: the detection side of the claim is real — on a narrow block only
the columns with a parse ratio of at least 20% qualify (here column 1)
and the detector pads the six role slots with the no-column sentinel,
while on a wide block the first six qualifying columns fill the roles in
left-to-right order (estimado reads the first, diferencia the sixth) —
but the no-error side is a code bug: with any sentinel slot the source's
`pick(-1)` returns a plain Python list whose `.map` raises
`AttributeError` in `_slice_block`, modelled here as the error result.
The repo's own ingresos test fixture qualifies only five columns in its
single block and would crash the same way. -/
theorem c5_sentinel_attributeerror :
    amountCands c5rows 0 2 = [1] ∧
    _detect_amount_cols c5rows 0 2 =
      [some 1, Option.none, Option.none, Option.none, Option.none, Option.none] ∧
    _slice_block c5g 0 1 "I" 0 = Except.error pickSentinelErr ∧
    amountCands c5widerows 0 8 = [1, 2, 3, 4, 5, 6, 7] ∧
    _detect_amount_cols c5widerows 0 8 = [some 1, some 2, some 3, some 4, some 5, some 6] ∧
    (_slice_block c5wideg 0 1 "I" 0).isOk = true ∧
    (match _slice_block c5wideg 0 1 "I" 0 with
      | Except.ok l => l.map (fun o => (o.estimado, o.diferencia))
      | Except.error _ => []) = [(some 1, some 6)] :=
  ⟨rfl, rfl, rfl, rfl, rfl, rfl, rfl⟩

/-- C6: the flexible strategy's fallback is real — with no Section II
marker the frames are the single Section I block from fixed row 7 to the
end of the grid, and a completing run's rows all carry seccion "I"
(`c6ok`) — but "the transform does not raise" is a code bug: on a
marker-less grid whose block qualifies fewer than six amount columns
(`c6fail`) the source raises `AttributeError` from `pick(-1).map`
instead of returning Section-I rows. -/
theorem c6_sentinel_attributeerror :
    (_find_section_ii_bounds c6fail).1 = Option.none ∧
    transform_ingresos_detallado_cp_data c6fail Option.none = Except.error pickSentinelErr ∧
    (_find_section_ii_bounds c6ok).1 = Option.none ∧
    ingFrames c6ok = _slice_block c6ok 7 c6ok.rows.length "I" (_detect_concept_col c6ok) ∧
    (transform_ingresos_detallado_cp_data c6ok Option.none).isOk = true ∧
    (ingOutput c6ok Option.none).all (fun o => o.seccion == "I") = true ∧
    (ingOutput c6ok Option.none).length = 1 :=
  ⟨rfl, rfl, rfl, rfl, rfl, rfl, rfl⟩

/-- C9: the revenue transform's exclusion step is a single OR-combined
mask applied once: the empty sheet yields no rows; a slicing
`AttributeError` propagates unchanged; and whenever the section blocks
resolve, the output is exactly the concatenated blocks filtered by the
OR of the three predicates — aggregate-total pattern, amount-less
"ingresos de libre disposición" (trimmed, case-insensitive), blank
concept with all six amounts empty — with the period fields then
attached. -/
theorem c9_exclusion_mask (g : Grid) (year : Option ℕ) :
    (gridEmpty g = true → transform_ingresos_detallado_cp_data g year = Except.ok []) ∧
    (gridEmpty g = false → (ingFrames g).isOk = false →
      transform_ingresos_detallado_cp_data g year = ingFrames g) ∧
    (gridEmpty g = false → (ingFrames g).isOk = true →
      transform_ingresos_detallado_cp_data g year =
        Except.ok (((ingFramesList g).filter (fun o =>
            !(ingIsTotal o.concepto ||
              (String.mk ((trimChars o.concepto.data).map Char.toLower) ==
                  "ingresos de libre disposición" && ingAllNull o) ||
              (conceptBlank o.concepto && ingAllNull o)))).map
          (fun o => { o with fecha := ingFecha g year, cuarto := "CP" }))) := by
  refine ⟨?_, ?_, ?_⟩
  · intro h
    rw [transform_ingresos_detallado_cp_data, if_pos h]
  · intro h hok
    cases hfr : ingFrames g with
    | ok pre =>
      rw [hfr] at hok
      simp [Except.isOk, Except.toBool] at hok
    | error e =>
      rw [transform_ingresos_detallado_cp_data, if_neg (by simp [h]), hfr]
  · intro h hok
    cases hfr : ingFrames g with
    | error e =>
      rw [hfr] at hok
      simp [Except.isOk, Except.toBool] at hok
    | ok pre =>
      rw [transform_ingresos_detallado_cp_data, if_neg (by simp [h]), hfr]
      have hfl : ingFramesList g = pre := by rw [ingFramesList, hfr]
      rw [hfl]
      by_cases hp : pre.isEmpty
      · have hnil : pre = [] := by
          cases pre with
          | nil => rfl
          | cons a t => exact absurd hp (by simp)
        subst hnil
        simp
      · simp only [hp, Bool.false_eq_true, if_false]
        rfl

/-- Witness for C9 at the empty sheet, at a narrow sheet whose block
hits the sentinel error, and at a wide sheet that completes. -/
theorem c9_exclusion_mask_witness :
    transform_ingresos_detallado_cp_data c9e (some 3) = Except.ok [] ∧
    transform_ingresos_detallado_cp_data c9fail (some 3) = ingFrames c9fail ∧
    transform_ingresos_detallado_cp_data c9ok (some 3) =
      Except.ok (((ingFramesList c9ok).filter (fun o =>
          !(ingIsTotal o.concepto ||
            (String.mk ((trimChars o.concepto.data).map Char.toLower) ==
                "ingresos de libre disposición" && ingAllNull o) ||
            (conceptBlank o.concepto && ingAllNull o)))).map
        (fun o => { o with fecha := ingFecha c9ok (some 3), cuarto := "CP" })) :=
  ⟨(c9_exclusion_mask c9e (some 3)).1 (by decide),
   (c9_exclusion_mask c9fail (some 3)).2.1 (by decide) (by decide),
   (c9_exclusion_mask c9ok (some 3)).2.2 (by decide) (by decide)⟩

/-- C10: on a dateless sheet the fecha variable stays the empty string
and cuarto is "CP" — a completing run's rows all carry fecha "" (not
null and not a year-end date) and cuarto "CP", as `c10ok` shows — but
the claim's universal form hits the same code bug: on a dateless
non-empty grid whose block qualifies fewer than six amount columns
(`c10fail`) the source raises `AttributeError` from `pick(-1).map`
instead of producing rows. -/
theorem c10_sentinel_attributeerror :
    _extract_fecha_y_cuarto c10fail = ("", "CP") ∧
    gridEmpty c10fail = false ∧
    transform_ingresos_detallado_cp_data c10fail Option.none = Except.error pickSentinelErr ∧
    _extract_fecha_y_cuarto c10ok = ("", "CP") ∧
    (transform_ingresos_detallado_cp_data c10ok Option.none).isOk = true ∧
    (ingOutput c10ok Option.none).all (fun o => o.fecha == "" && o.cuarto == "CP") = true ∧
    (ingOutput c10ok Option.none).length = 1 :=
  ⟨rfl, rfl, rfl, rfl, rfl, rfl, rfl⟩
